import Mathlib

/-!
Shallow embedding of the bubbletea `Program` runtime (src/tea.go and
src/keyboard.go): the event-loop message dispatch, the terminal mode
table, the keyboard-enhancement negotiation state, the once-guarded
shutdown coordinator, the `Send` select, and the OS signal handler.
State mutation is made explicit: each embedded operation returns the new
program state together with the list of externally observable effects
(terminal escape writes, renderer capability calls, command forwarding,
spawned goroutines), in the order the Go code performs them.
-/

namespace Tea

/-- Kitty progressive-enhancement flag `ansi.KittyDisambiguateEscapeCodes`. -/
def KittyDisambiguateEscapeCodes : Nat := 1

/-- Kitty progressive-enhancement flag `ansi.KittyReportEventTypes`. -/
def KittyReportEventTypes : Nat := 2

/-- Kitty progressive-enhancement flag `ansi.KittyReportAlternateKeys`. -/
def KittyReportAlternateKeys : Nat := 4

/-- Kitty progressive-enhancement flag `ansi.KittyReportAllKeysAsEscapeCodes`. -/
def KittyReportAllKeysAsEscapeCodes : Nat := 8

/-- KeyboardEnhancements (src/keyboard.go): the kitty progressive-protocol
bitmask and the xterm modifyOtherKeys level.  Both are small non-negative
integers in the Go code (`int` fields holding flag unions resp. levels
0/1/2); they are embedded as `Nat`. -/
structure KeyboardEnhancements where
  kittyFlags : Nat
  modifyOtherKeys : Nat
deriving DecidableEq

/-- A terminal mode setting, as in the `ansi.ModeSetting` tri-state (plus the
DECRPM permanent variants) used by `Program.modes`.  The zero value, returned
by `Modes.Get` for a mode that was never touched, is `notRecognized`. -/
inductive ModeSetting where
  | notRecognized
  | set
  | reset
  | permanentlySet
  | permanentlyReset
deriving DecidableEq

/-- ModeSetting.IsSet from the ansi library: the mode is currently set. -/
def ModeSetting.IsSet : ModeSetting → Bool
  | .set => true
  | .permanentlySet => true
  | _ => false

/-- ModeSetting.IsReset from the ansi library: the mode is currently reset. -/
def ModeSetting.IsReset : ModeSetting → Bool
  | .reset => true
  | .permanentlyReset => true
  | _ => false

/-- The terminal mode table `ansi.Modes` (a Go map from mode number to
`ModeSetting`), embedded as an association list keyed by the ANSI mode
number. -/
abbrev Modes := List (Nat × ModeSetting)

/-- Modes.Get: lookup, with the Go zero value for an absent key. -/
def Modes.get (ms : Modes) (m : Nat) : ModeSetting :=
  (List.lookup m ms).getD ModeSetting.notRecognized

/-- Write a mode value, replacing any existing binding for that mode. -/
def Modes.setTo (ms : Modes) (m : Nat) (v : ModeSetting) : Modes :=
  (m, v) :: List.filter (fun p => !(p.1 == m)) ms

/-- Modes.Set: mark the mode set. -/
def Modes.setMode (ms : Modes) (m : Nat) : Modes := ms.setTo m ModeSetting.set

/-- Modes.Reset: mark the mode reset. -/
def Modes.resetMode (ms : Modes) (m : Nat) : Modes := ms.setTo m ModeSetting.reset

/-- ANSI mode number of `ansi.TextCursorEnableMode` (DECTCEM). -/
def TextCursorEnableMode : Nat := 25

/-- ANSI mode number of `ansi.ButtonEventMouseMode`. -/
def ButtonEventMouseMode : Nat := 1002

/-- ANSI mode number of `ansi.AnyEventMouseMode`. -/
def AnyEventMouseMode : Nat := 1003

/-- ANSI mode number of `ansi.FocusEventMode`. -/
def FocusEventMode : Nat := 1004

/-- ANSI mode number of `ansi.SgrExtMouseMode`. -/
def SgrExtMouseMode : Nat := 1006

/-- ANSI mode number of `ansi.AltScreenSaveCursorMode`. -/
def AltScreenSaveCursorMode : Nat := 1049

/-- ANSI mode number of `ansi.BracketedPasteMode`. -/
def BracketedPasteMode : Nat := 2004

/-- ANSI mode number of `ansi.GraphemeClusteringMode`. -/
def GraphemeClusteringMode : Nat := 2027

/-- Terminal color profile (colorprofile.Profile); only identity and the
TrueColor comparison matter to the runtime. -/
inductive Profile where
  | noTTY
  | ascii
  | ansi
  | ansi256
  | trueColor
deriving DecidableEq

/-- Colors (Go `color.Color` interface values) are opaque to the runtime;
an identity suffices.  A Go nil color is `Option.none` at use sites. -/
abbrev Color := Nat

/-- Commands (`tea.Cmd`, a `func() Msg`) are never invoked by the event loop
itself — they are forwarded to the command executor — so they are embedded
as opaque identifiers.  A Go nil Cmd is `Option.none` at use sites. -/
abbrev CmdId := Nat

/-- The keyboard enhancement options defined in src/keyboard.go
(`KeyboardEnhancementOption` values constructed by the package). -/
inductive KeyboardEnhancementOption where
  | withKeyReleases
  | withUniformKeyLayout
  | withKeyDisambiguation
deriving DecidableEq

/-- Application of a keyboard enhancement option to a `KeyboardEnhancements`
value, as the three option functions in src/keyboard.go mutate their
argument. -/
def KeyboardEnhancementOption.apply :
    KeyboardEnhancementOption → KeyboardEnhancements → KeyboardEnhancements
  | .withKeyReleases, k =>
      { k with kittyFlags := k.kittyFlags ||| KittyReportEventTypes }
  | .withUniformKeyLayout, k =>
      { k with kittyFlags :=
          k.kittyFlags ||| (KittyReportAlternateKeys ||| KittyReportAllKeysAsEscapeCodes) }
  | .withKeyDisambiguation, k =>
      { kittyFlags := k.kittyFlags ||| KittyDisambiguateEscapeCodes,
        modifyOtherKeys := if k.modifyOtherKeys < 1 then 1 else k.modifyOtherKeys }

/-- The message type (`tea.Msg`): the closed set of built-in control messages
handled by the event-loop switch in src/tea.go, plus one opaque constructor
for application-defined messages the switch does not mention (they reach the
default path: no internal effect, then Update and render).  A Go nil message
is `Option.none` at use sites. -/
inductive Msg where
  | quitMsg
  | interruptMsg
  | suspendMsg
  | resumeMsg
  | capabilityMsg (s : String)
  | modeReportMsg (mode : Nat) (value : ModeSetting)
  | enableModeMsg (mode : Nat)
  | disableModeMsg (mode : Nat)
  | readClipboardMsg
  | setClipboardMsg (s : String)
  | readPrimaryClipboardMsg
  | setPrimaryClipboardMsg (s : String)
  | setBackgroundColorMsg (c : Option Color)
  | setForegroundColorMsg (c : Option Color)
  | setCursorColorMsg (c : Option Color)
  | backgroundColorMsg
  | foregroundColorMsg
  | cursorColorMsg
  | keyboardEnhancementsMsg (k : KeyboardEnhancements)
  | enableKeyboardEnhancementsMsg (opts : List KeyboardEnhancementOption)
  | disableKeyboardEnhancementsMsg
  | execMsg
  | terminalVersion
  | requestCapabilityMsg (s : String)
  | batchMsg (cmds : List (Option CmdId))
  | sequenceMsg (cmds : List (Option CmdId))
  | setWindowTitleMsg (s : String)
  | windowSizeReport (w h : Int)
  | windowSizeRequest
  | requestCursorPosMsg
  | rawMsg (s : String)
  | printLineMessage (s : String)
  | repaintMsg
  | clearScreenMsg
  | colorProfileMsg (pr : Profile)
  | appMsg (tag : Nat)
deriving DecidableEq

/-- Errors surfaced by the runtime (src/tea.go): `ErrInterrupted`,
`ErrProgramKilled`, and errors arriving on the `errs` channel. -/
inductive Err where
  | interrupted
  | programKilled
  | external (e : Nat)
deriving DecidableEq

/-- A terminal escape write performed through `Program.execute`; each
constructor stands for the ansi-library sequence of the same name. -/
inductive TermWrite where
  | setMode (m : Nat)
  | resetMode (m : Nat)
  | setGraphemeClusteringWithRequest
  | requestSystemClipboard
  | setSystemClipboard (s : String)
  | requestPrimaryClipboard
  | setPrimaryClipboard (s : String)
  | setBackgroundColor (c : Color)
  | resetBackgroundColor
  | setForegroundColor (c : Color)
  | resetForegroundColor
  | setCursorColor (c : Color)
  | resetCursorColor
  | requestBackgroundColor
  | requestForegroundColor
  | requestCursorColor
  | resetModifyOtherKeys
  | disableKittyKeyboard
  | keyModifierOptions (pt level : Nat)
  | queryModifyOtherKeys
  | pushKittyKeyboard (flags : Nat)
  | requestKittyKeyboard
  | requestNameVersion
  | requestTermcap (s : String)
  | setWindowTitle (s : String)
  | requestCursorPositionReport
  | raw (s : String)
deriving DecidableEq

/-- An externally observable action of one event-loop iteration, in program
order: escape writes, renderer capability calls, goroutine spawns, the
channel send of a command to the executor, the call of `Model.Update`, and
the per-message render. -/
inductive Eff where
  | write (w : TermWrite)
  | enterAltScreen
  | exitAltScreen
  | showCursor
  | hideCursor
  | rendResize (w h : Int)
  | insertAbove (s : String)
  | repaint
  | clearScreen
  | setColorProfile (pr : Profile)
  | spawnSend (m : Msg)
  | spawnKeyboardcSignal
  | spawnSendKeyboardEnhancementsMsg
  | spawnSequence (cs : List (Option CmdId))
  | spawnCheckResize
  | suspendProcess
  | runExecProcess
  | forwardCmd (c : Option CmdId)
  | updateCall
  | render
deriving DecidableEq

/-- The mutable program state the event loop owns exclusively
(fields of `Program` in src/tea.go touched by the message switch).
`windows` embeds the `runtime.GOOS == "windows"` build condition. -/
structure ProgState where
  modes : Modes
  requestedEnhancements : KeyboardEnhancements
  activeEnhancements : KeyboardEnhancements
  setBg : Option Color
  setFg : Option Color
  setCc : Option Color
  profile : Profile
  windows : Bool
deriving DecidableEq

/-- Program.requestKeyboardEnhancements (src/tea.go): emit the enable and
query escapes for each requested channel that is non-zero. -/
def requestKeyboardEnhancements (r : KeyboardEnhancements) : List TermWrite :=
  (if r.modifyOtherKeys > 0 then
    [TermWrite.keyModifierOptions 4 r.modifyOtherKeys, TermWrite.queryModifyOtherKeys]
  else []) ++
  (if r.kittyFlags > 0 then
    [TermWrite.pushKittyKeyboard r.kittyFlags, TermWrite.requestKittyKeyboard]
  else [])

/-- The `KeyboardEnhancements` value a single enableKeyboardEnhancementsMsg
carries: its options applied, in order, to the zero value (the
`var ke KeyboardEnhancements; for _, e := range msg { e(&ke) }` loop). -/
def keOfOptions (opts : List KeyboardEnhancementOption) : KeyboardEnhancements :=
  opts.foldl (fun k o => o.apply k) ⟨0, 0⟩

/-- Merge one enable request into the accumulated requested set: bitwise OR
on the kitty bitmask, maximum on the modifyOtherKeys level (src/tea.go,
enableKeyboardEnhancementsMsg case). -/
def mergeRequested (req : KeyboardEnhancements) (opts : List KeyboardEnhancementOption) :
    KeyboardEnhancements :=
  let ke := keOfOptions opts
  { kittyFlags := req.kittyFlags ||| ke.kittyFlags,
    modifyOtherKeys :=
      if ke.modifyOtherKeys > req.modifyOtherKeys then ke.modifyOtherKeys
      else req.modifyOtherKeys }

/-- State change of the disableKeyboardEnhancementsMsg case (src/tea.go):
each channel is reset, and its requested value cleared, only under the
guard that the channel is currently active. -/
def disableEnhancements (st : ProgState) : ProgState × List Eff :=
  if st.windows then (st, [])
  else
    let (st1, e1) :=
      if st.activeEnhancements.modifyOtherKeys > 0 then
        ({ st with
            activeEnhancements := { st.activeEnhancements with modifyOtherKeys := 0 },
            requestedEnhancements := { st.requestedEnhancements with modifyOtherKeys := 0 } },
         [Eff.write TermWrite.resetModifyOtherKeys])
      else (st, [])
    if st1.activeEnhancements.kittyFlags > 0 then
      (({ st1 with
          activeEnhancements := { st1.activeEnhancements with kittyFlags := 0 },
          requestedEnhancements := { st1.requestedEnhancements with kittyFlags := 0 } }),
       e1 ++ [Eff.write TermWrite.disableKittyKeyboard])
    else (st1, e1)

/-- Whether `suspendSupported` holds for the build (true on the unix build
of src/tea.go used here). -/
def suspendSupported : Bool := true

/-- The mode-specific side effect of enabling a mode that was not yet set
(src/tea.go, enableModeMsg case): alt-screen and cursor visibility go
through the renderer; grapheme clustering issues the set escape together
with a DECRQM capability query; every other mode issues the plain set-mode
escape. -/
def enableModeSideEffect (mode : Nat) : List Eff :=
  if mode == AltScreenSaveCursorMode then [Eff.enterAltScreen]
  else if mode == TextCursorEnableMode then [Eff.showCursor]
  else if mode == GraphemeClusteringMode then
    [Eff.write TermWrite.setGraphemeClusteringWithRequest]
  else [Eff.write (TermWrite.setMode mode)]

/-- The mode-specific side effect of disabling a mode that was not yet
reset (src/tea.go, disableModeMsg case). -/
def disableModeSideEffect (mode : Nat) : List Eff :=
  if mode == AltScreenSaveCursorMode then [Eff.exitAltScreen]
  else if mode == TextCursorEnableMode then [Eff.hideCursor]
  else [Eff.write (TermWrite.resetMode mode)]

/-- The state change and effects of the internal-message switch of
`Program.eventLoop` (src/tea.go lines 495-730), one Go `case` per match arm.
Control flow (return for quit/interrupt, `continue` for batch, fallthrough
to Update for everything else) is factored into `msgCtl`. -/
def internalEffect (st : ProgState) : Msg → ProgState × List Eff
  | .quitMsg => (st, [])
  | .interruptMsg => (st, [])
  | .suspendMsg =>
      if suspendSupported then (st, [Eff.suspendProcess]) else (st, [])
  | .resumeMsg => (st, [])
  | .capabilityMsg s =>
      if s == "RGB" || s == "Tc" then
        if st.profile != Profile.trueColor then
          ({ st with profile := Profile.trueColor },
           [Eff.spawnSend (Msg.colorProfileMsg Profile.trueColor)])
        else (st, [])
      else (st, [])
  | .modeReportMsg mode value =>
      if mode == GraphemeClusteringMode then
        ({ st with modes := st.modes.setTo GraphemeClusteringMode value }, [])
      else (st, [])
  | .enableModeMsg mode =>
      if (st.modes.get mode).IsSet then (st, [])
      else ({ st with modes := st.modes.setMode mode }, enableModeSideEffect mode)
  | .disableModeMsg mode =>
      if (st.modes.get mode).IsReset then (st, [])
      else ({ st with modes := st.modes.resetMode mode }, disableModeSideEffect mode)
  | .readClipboardMsg => (st, [Eff.write TermWrite.requestSystemClipboard])
  | .setClipboardMsg s => (st, [Eff.write (TermWrite.setSystemClipboard s)])
  | .readPrimaryClipboardMsg => (st, [Eff.write TermWrite.requestPrimaryClipboard])
  | .setPrimaryClipboardMsg s => (st, [Eff.write (TermWrite.setPrimaryClipboard s)])
  | .setBackgroundColorMsg c =>
      ({ st with setBg := c },
       [Eff.write (match c with
         | some col => TermWrite.setBackgroundColor col
         | none => TermWrite.resetBackgroundColor)])
  | .setForegroundColorMsg c =>
      ({ st with setFg := c },
       [Eff.write (match c with
         | some col => TermWrite.setForegroundColor col
         | none => TermWrite.resetForegroundColor)])
  | .setCursorColorMsg c =>
      ({ st with setCc := c },
       [Eff.write (match c with
         | some col => TermWrite.setCursorColor col
         | none => TermWrite.resetCursorColor)])
  | .backgroundColorMsg => (st, [Eff.write TermWrite.requestBackgroundColor])
  | .foregroundColorMsg => (st, [Eff.write TermWrite.requestForegroundColor])
  | .cursorColorMsg => (st, [Eff.write TermWrite.requestCursorColor])
  | .keyboardEnhancementsMsg k =>
      ({ st with activeEnhancements := k }, [Eff.spawnKeyboardcSignal])
  | .enableKeyboardEnhancementsMsg opts =>
      if st.windows then (st, [])
      else
        let st1 := { st with requestedEnhancements := mergeRequested st.requestedEnhancements opts }
        (st1,
         (requestKeyboardEnhancements st1.requestedEnhancements).map Eff.write ++
           [Eff.spawnSendKeyboardEnhancementsMsg])
  | .disableKeyboardEnhancementsMsg => disableEnhancements st
  | .execMsg => (st, [Eff.runExecProcess])
  | .terminalVersion => (st, [Eff.write TermWrite.requestNameVersion])
  | .requestCapabilityMsg s => (st, [Eff.write (TermWrite.requestTermcap s)])
  | .batchMsg cmds => (st, cmds.map Eff.forwardCmd)
  | .sequenceMsg cmds => (st, [Eff.spawnSequence cmds])
  | .setWindowTitleMsg s => (st, [Eff.write (TermWrite.setWindowTitle s)])
  | .windowSizeReport w h => (st, [Eff.rendResize w h])
  | .windowSizeRequest => (st, [Eff.spawnCheckResize])
  | .requestCursorPosMsg => (st, [Eff.write TermWrite.requestCursorPositionReport])
  | .rawMsg s => (st, [Eff.write (TermWrite.raw s)])
  | .printLineMessage s => (st, [Eff.insertAbove s])
  | .repaintMsg => (st, [Eff.repaint])
  | .clearScreenMsg => (st, [Eff.clearScreen])
  | .colorProfileMsg pr => (st, [Eff.setColorProfile pr])
  | .appMsg _ => (st, [])

/-- Control disposition of one switch case: `QuitMsg` and `InterruptMsg`
return from the loop, `BatchMsg` issues `continue` (skipping Update, command
forwarding and render), every other case falls through to Update. -/
inductive Ctl where
  | exitLoop (e : Option Err)
  | skipRest
  | fallthru
deriving DecidableEq

/-- Which control disposition each message constructor takes in the Go
switch (src/tea.go): it depends only on the constructor. -/
def msgCtl : Msg → Ctl
  | .quitMsg => Ctl.exitLoop none
  | .interruptMsg => Ctl.exitLoop (some Err.interrupted)
  | .batchMsg _ => Ctl.skipRest
  | _ => Ctl.fallthru

/-- The filter hook `p.filter` applied as in src/tea.go lines 487-489: when
installed, it rewrites the (possibly nil) incoming message. -/
def applyFilter {M : Type} (filter : Option (M → Option Msg → Option Msg))
    (model : M) (msg : Option Msg) : Option Msg :=
  match filter with
  | some f => f model msg
  | none => msg

/-- The result of one `case msg := <-p.msgs` iteration of the event loop:
the new program state, the new model, the observable effects in order, and
`exit = some e` when the loop returns (with loop error `e`). -/
structure StepOut (M : Type) where
  st : ProgState
  model : M
  effs : List Eff
  exit : Option (Option Err)
deriving DecidableEq

/-- One iteration of the event loop on a received message (src/tea.go
lines 485-737): filter, drop nil, apply the internal effect, then — unless
the case returned or continued — run `model.Update`, forward the resulting
command to the executor channel, and render the new model. -/
def processMsg {M : Type} (update : M → Msg → M × Option CmdId)
    (filter : Option (M → Option Msg → Option Msg))
    (st : ProgState) (model : M) (msg0 : Option Msg) : StepOut M :=
  match applyFilter filter model msg0 with
  | none => ⟨st, model, [], none⟩
  | some msg =>
    let se := internalEffect st msg
    match msgCtl msg with
    | Ctl.exitLoop e => ⟨se.1, model, se.2, some e⟩
    | Ctl.skipRest => ⟨se.1, model, se.2, none⟩
    | Ctl.fallthru =>
      let um := update model msg
      ⟨se.1, um.1, se.2 ++ [Eff.updateCall, Eff.forwardCmd um.2, Eff.render], none⟩

/-- The error post-processing of `Program.Run` after the event loop returns
(src/tea.go lines 936-947): compute the `killed` flag, substitute
`ErrProgramKilled` for an unattributed cancellation, render the final model
only on a nil error, and pass `killed` to `shutdown`.  Returns
(final error, whether the final render ran, the kill flag given to
shutdown). -/
def runFinalize (ctxCancelled : Bool) (loopErr : Option Err) :
    Option Err × Bool × Bool :=
  let killed := ctxCancelled || loopErr.isSome
  let err := if killed && loopErr.isNone then some Err.programKilled else loopErr
  (err, err.isNone, killed)

/-- One step of the shutdown body, named after the operation in
`Program.shutdown` (src/tea.go lines 996-1023). -/
inductive ShutEff where
  | cancelCtx
  | waitHandlers
  | waitForReadLoop
  | closeInput
  | stopRenderer (kill : Bool)
  | restoreTerminal
  | signalFinished
deriving DecidableEq

/-- The configuration the shutdown body branches on: whether an input reader
was set up, whether its `Cancel()` succeeds, and whether a renderer exists. -/
structure ShutCfg where
  hasInputReader : Bool
  inputCancelOk : Bool
  hasRenderer : Bool
deriving DecidableEq

/-- The body of `Program.shutdown` (the closure given to
`p.shutdownOnce.Do`): cancel the root context, wait for all registered
handlers, cancel and close the input reader (draining the read loop only on
a graceful shutdown), stop the renderer, restore the terminal, and signal
the finished channel unless this is a kill. -/
def shutdownBody (cfg : ShutCfg) (kill : Bool) : List ShutEff :=
  [ShutEff.cancelCtx, ShutEff.waitHandlers] ++
  (if cfg.hasInputReader then
    (if cfg.inputCancelOk && !kill then [ShutEff.waitForReadLoop] else []) ++
      [ShutEff.closeInput]
  else []) ++
  (if cfg.hasRenderer then [ShutEff.stopRenderer kill] else []) ++
  [ShutEff.restoreTerminal] ++
  (if kill then [] else [ShutEff.signalFinished])

/-- One call of `Program.shutdown(kill)`: `sync.Once` runs the body only if
no earlier call has; the once-flag is the Boolean state. -/
def shutdownCall (cfg : ShutCfg) (doneFlag : Bool) (kill : Bool) :
    Bool × List ShutEff :=
  if doneFlag then (doneFlag, []) else (true, shutdownBody cfg kill)

/-- A sequence of `shutdown` calls, as `sync.Once.Do` serializes them
(concurrent calls execute in some total order; the list is that order).
Returns the final once-flag and the concatenated effects of all calls. -/
def shutdownSeq (cfg : ShutCfg) : Bool → List Bool → Bool × List ShutEff
  | doneFlag, [] => (doneFlag, [])
  | doneFlag, k :: ks =>
      let c := shutdownCall cfg doneFlag k
      let rest := shutdownSeq cfg c.1 ks
      (rest.1, c.2 ++ rest.2)

/-- The termination triggers of the runtime and the kill flag each one
passes to `Program.shutdown`: a clean quit reaches `shutdown(false)` through
`Run` (`killed` is false since the loop error is nil and the context is
live); `Kill` calls `shutdown(true)`; a recovered panic calls
`shutdown(true)` from `recoverFromPanic`; an interrupt makes the loop error
`ErrInterrupted`, so `Run` computes `killed = true`; a context cancellation
makes `ctx.Err()` non-nil, so `killed = true` as well. -/
inductive Trigger where
  | quit
  | kill
  | interrupt
  | appFault
  | ctxCancel
deriving DecidableEq

/-- The kill flag the shutdown call of each trigger carries. -/
def Trigger.killFlag : Trigger → Bool
  | .quit => false
  | _ => true

/-- Outcome of `Program.Send` (src/tea.go lines 959-964): a two-way Go
`select` between the closed-context case and delivery into `p.msgs`. -/
inductive SendOutcome where
  | canceledNoop
  | delivered
deriving DecidableEq

/-- The set of outcomes the `select` in `Program.Send` can complete with,
given whether the root context is done and whether the event loop is ready
to receive: a select case is available exactly when its channel operation is
ready, and the select blocks while the list is empty. -/
def sendOutcomes (ctxDone : Bool) (receiverReady : Bool) : List SendOutcome :=
  (if ctxDone then [SendOutcome.canceledNoop] else []) ++
  (if receiverReady then [SendOutcome.delivered] else [])

/-- OS signals the handler subscribes to (`signal.Notify(sig, syscall.SIGINT,
syscall.SIGTERM)`). -/
inductive Sig where
  | sigint
  | sigterm
deriving DecidableEq

/-- The message `Program.handleSignals` (src/tea.go lines 380-419) produces
for a received signal: nothing while `ignoreSignals` is non-zero; otherwise
SIGINT maps to `InterruptMsg` and the default branch (SIGTERM) to
`QuitMsg`. -/
def handleSignal (ignoreSignals : Bool) (s : Sig) : Option Msg :=
  if ignoreSignals then none
  else match s with
    | Sig.sigint => some Msg.interruptMsg
    | Sig.sigterm => some Msg.quitMsg

/-- ReleaseTerminal first stores 1 into `ignoreSignals`
(src/tea.go line 1038), suspending signal handling. -/
def releaseTerminalIgnoreFlag : Bool := true

/-- The keyboard-enhancement negotiation timeout of
`Program.sendKeyboardEnhancementsMsg`, in milliseconds (src/tea.go line
1201: `const timeout = 100 * time.Millisecond`). -/
def negotiationTimeoutMs : Nat := 100

/-- Which event resolves the negotiation select first: the 100 ms timer, or
the `keyboardc` signal sent when a terminal response
(`KeyboardEnhancementsMsg`) was processed by the event loop. -/
inductive NegotiationFirst where
  | timeoutFired
  | confirmed (response : KeyboardEnhancements)
deriving DecidableEq

/-- The message `Program.sendKeyboardEnhancementsMsg` itself sends
(src/tea.go lines 1192-1207): on windows, an unconditional empty report; on
the timeout branch, an empty report; on the `keyboardc` branch, nothing
(the terminal's own report already reached the loop). -/
def sendKeyboardEnhancementsMsgResult (windows : Bool) (first : NegotiationFirst) :
    Option Msg :=
  if windows then some (Msg.keyboardEnhancementsMsg ⟨0, 0⟩)
  else match first with
    | NegotiationFirst.timeoutFired => some (Msg.keyboardEnhancementsMsg ⟨0, 0⟩)
    | NegotiationFirst.confirmed _ => none

/-- End-to-end negotiation settlement on a non-windows build: the state of
the program after the event loop processes the `KeyboardEnhancementsMsg`
that the negotiation produced — the timeout's empty report, or the
terminal's confirmation. -/
def negotiationSettle (st : ProgState) (first : NegotiationFirst) : ProgState :=
  match first with
  | NegotiationFirst.timeoutFired =>
      (internalEffect st (Msg.keyboardEnhancementsMsg ⟨0, 0⟩)).1
  | NegotiationFirst.confirmed r =>
      (internalEffect st (Msg.keyboardEnhancementsMsg r)).1

/-- A fresh program state: empty mode table, zero enhancement sets, no
stored colors, non-windows build. -/
def st0 : ProgState :=
  { modes := ([] : List (Nat × ModeSetting)),
    requestedEnhancements := ⟨0, 0⟩,
    activeEnhancements := ⟨0, 0⟩,
    setBg := none, setFg := none, setCc := none,
    profile := Profile.ansi256,
    windows := false }

/-- A trivial model transition: the model is `Unit`, updates are identity
with no command. -/
def unitUpdate : Unit → Msg → Unit × Option CmdId := fun _ _ => ((), none)

/-- An enable-mode or disable-mode request, as carried by `enableModeMsg`
and `disableModeMsg`. -/
inductive ModeOp where
  | enable (m : Nat)
  | disable (m : Nat)
deriving DecidableEq

/-- The mode a request addresses. -/
def ModeOp.mode : ModeOp → Nat
  | .enable m => m
  | .disable m => m

/-- Whether the request is an enable. -/
def ModeOp.isEnable : ModeOp → Bool
  | .enable _ => true
  | .disable _ => false

/-- The message the request arrives as. -/
def ModeOp.toMsg : ModeOp → Msg
  | .enable m => Msg.enableModeMsg m
  | .disable m => Msg.disableModeMsg m

/-- The program state after the event loop processes a sequence of
enable-mode/disable-mode messages. -/
def applyModeOps (st : ProgState) (ops : List ModeOp) : ProgState :=
  ops.foldl (fun s op => (internalEffect s op.toMsg).1) st

/-- Net enables of a call sequence on one mode: enables minus disables. -/
def netEnables (ops : List ModeOp) (m : Nat) : Int :=
  (ops.countP (fun op => op == ModeOp.enable m) : Int) -
    (ops.countP (fun op => op == ModeOp.disable m) : Int)

/-- Modelled from the spec's words, for comparison with the code: "the
resulting state equals the parity of net enables" — set when the net number
of enables is odd, reset when it is even. -/
def specParityState (ops : List ModeOp) (m : Nat) : ModeSetting :=
  if netEnables ops m % 2 = 1 then ModeSetting.set else ModeSetting.reset

/-- A state in which mode 2004 (bracketed paste) is already set. -/
def stSet : ProgState := { st0 with modes := [(BracketedPasteMode, ModeSetting.set)] }

/-- A state in which mode 2004 (bracketed paste) is already reset. -/
def stReset : ProgState := { st0 with modes := [(BracketedPasteMode, ModeSetting.reset)] }

/-- The program state after the event loop processes a sequence of
enable-keyboard-enhancements messages (each carrying its option list). -/
def processEnhancementRequests : ProgState → List (List KeyboardEnhancementOption) → ProgState
  | st, [] => st
  | st, opts :: rest =>
      processEnhancementRequests
        (internalEffect st (Msg.enableKeyboardEnhancementsMsg opts)).1 rest

/-- A state reachable before negotiation settles: a disambiguation request
was merged into the requested set (bitmask 1, level 1) while the terminal
never confirmed, so the active set is still zero. -/
def stPendingRequest : ProgState := { st0 with requestedEnhancements := ⟨1, 1⟩ }

/-- A state in which both enhancement channels are active. -/
def stActive : ProgState :=
  { st0 with activeEnhancements := ⟨1, 2⟩, requestedEnhancements := ⟨3, 2⟩ }

/-- Once the done flag is up, further shutdown calls collapse into the
execution already past: no effects. -/
lemma shutdownSeq_done (cfg : ShutCfg) (ks : List Bool) :
    shutdownSeq cfg true ks = (true, []) := by
  induction ks with
  | nil => rfl
  | cons k ks ih => simp [shutdownSeq, shutdownCall, ih]

/-- The finished channel is signaled by the body exactly when the executing
call is not a kill. -/
lemma shutdownBody_count_signal (cfg : ShutCfg) (kill : Bool) :
    (shutdownBody cfg kill).count ShutEff.signalFinished =
      (if kill then 0 else 1) := by
  obtain ⟨a, b, c⟩ := cfg
  cases a <;> cases b <;> cases c <;> cases kill <;> decide

/-- C1: however many termination triggers from {Quit, Kill, panic,
Interrupt, context cancellation} fire — `sync.Once.Do` serializes the
resulting `shutdown` calls into some total order — the shutdown body
(cancel context, wait handlers, close input, stop renderer, restore
terminal) executes exactly once, namely for the first call, and the
finished channel is signaled exactly once unless the executing (first) call
carried the hard-kill flag. -/
theorem shutdown_exactly_once (cfg : ShutCfg) (t : Trigger) (ts : List Trigger) :
    (shutdownSeq cfg false ((t :: ts).map Trigger.killFlag)).2 =
        shutdownBody cfg t.killFlag ∧
      (shutdownSeq cfg false ((t :: ts).map Trigger.killFlag)).2.count
          ShutEff.signalFinished = (if t.killFlag then 0 else 1) := by
  have hseq : (shutdownSeq cfg false ((t :: ts).map Trigger.killFlag)).2 =
      shutdownBody cfg t.killFlag := by
    simp [List.map_cons, shutdownSeq, shutdownCall,
      shutdownSeq_done cfg (ts.map Trigger.killFlag)]
  exact ⟨hseq, by rw [hseq]; exact shutdownBody_count_signal cfg t.killFlag⟩

/-- C2: a received `QuitMsg` ends the event loop returning the current
model with a nil error, and — the context being live — `Run` then returns a
nil error after a final render; a received `InterruptMsg` ends the loop
returning the current model with `ErrInterrupted`, which `Run` returns. -/
theorem quit_interrupt_terminate {M : Type} (update : M → Msg → M × Option CmdId)
    (st : ProgState) (model : M) :
    processMsg update none st model (some Msg.quitMsg) = ⟨st, model, [], some none⟩ ∧
      processMsg update none st model (some Msg.interruptMsg) =
        ⟨st, model, [], some (some Err.interrupted)⟩ ∧
      runFinalize false none = (none, true, false) ∧
      runFinalize false (some Err.interrupted) = (some Err.interrupted, false, true) :=
  ⟨rfl, rfl, rfl, rfl⟩

/-- C6: if the negotiation timeout elapses before a terminal confirmation,
an empty enhancements report is sent and processing it leaves the active
enhancements fully zero; if a confirmation arrives first, the waiter sends
nothing and the loop stores the response as the active enhancements.  The
timeout is the fixed 100 ms constant. -/
theorem negotiation_timeout_resolves (st : ProgState) (r : KeyboardEnhancements) :
    sendKeyboardEnhancementsMsgResult false NegotiationFirst.timeoutFired =
        some (Msg.keyboardEnhancementsMsg ⟨0, 0⟩) ∧
      (negotiationSettle st NegotiationFirst.timeoutFired).activeEnhancements = ⟨0, 0⟩ ∧
      sendKeyboardEnhancementsMsgResult false (NegotiationFirst.confirmed r) = none ∧
      (negotiationSettle st (NegotiationFirst.confirmed r)).activeEnhancements = r ∧
      negotiationTimeoutMs = 100 :=
  ⟨rfl, rfl, rfl, rfl, rfl⟩

/-- C8: once the root context is cancelled, the `select` in `Program.Send`
always has a completed case available — it never blocks — and every
possible outcome is either the cancellation no-op or a delivery, never a
fault; before cancellation, the only possible outcome is delivery, and no
case is available (the call blocks) until the loop is ready to receive. -/
theorem send_after_exit_safe :
    (∀ r, sendOutcomes true r ≠ []) ∧
      (∀ r o, o ∈ sendOutcomes true r →
        o = SendOutcome.canceledNoop ∨ o = SendOutcome.delivered) ∧
      sendOutcomes false true = [SendOutcome.delivered] ∧
      sendOutcomes false false = [] := by
  refine ⟨?_, ?_, rfl, rfl⟩ <;> decide

/-- Witness for C8: with the context cancelled and the loop not receiving,
the select still has an outcome, and the cancellation outcome is one of the
two benign ones. -/
theorem send_after_exit_safe_witness :
    sendOutcomes true false ≠ [] ∧
      (SendOutcome.canceledNoop = SendOutcome.canceledNoop ∨
        SendOutcome.canceledNoop = SendOutcome.delivered) :=
  ⟨send_after_exit_safe.1 false,
    send_after_exit_safe.2.1 false SendOutcome.canceledNoop (by decide)⟩

/-- C9: with signal handling not suspended, a SIGINT maps to `InterruptMsg`
and a SIGTERM to `QuitMsg`; while the ignore flag — stored by
`ReleaseTerminal` — is up, no signal produces a message. -/
theorem signals_map_to_messages :
    handleSignal false Sig.sigint = some Msg.interruptMsg ∧
      handleSignal false Sig.sigterm = some Msg.quitMsg ∧
      (∀ s, handleSignal true s = none) ∧
      (∀ s, handleSignal releaseTerminalIgnoreFlag s = none) := by
  refine ⟨rfl, rfl, ?_, ?_⟩ <;> intro s <;> cases s <;> rfl

/-- C10: a message the filter maps to nil (or that arrives nil) is dropped
whole: the iteration returns with the program state and model unchanged and
no observable effect — no Update call, no command forwarded, no render. -/
theorem filtered_message_dropped {M : Type} (update : M → Msg → M × Option CmdId)
    (filter : Option (M → Option Msg → Option Msg)) (st : ProgState) (model : M)
    (msg0 : Option Msg) (h : applyFilter filter model msg0 = none) :
    processMsg update filter st model msg0 = ⟨st, model, [], none⟩ := by
  simp [processMsg, h]

/-- Witness for C10: a filter that drops everything, applied to a concrete
quit message, leaves the fresh state untouched. -/
theorem filtered_message_dropped_witness :
    processMsg unitUpdate (some fun _ _ => none) st0 () (some Msg.quitMsg) =
      ⟨st0, (), [], none⟩ :=
  filtered_message_dropped unitUpdate (some fun _ _ => none) st0 () (some Msg.quitMsg) rfl

/-- Every message constructor other than `QuitMsg`, `InterruptMsg` and
`BatchMsg` falls through the switch to the Update-forward-render tail. -/
lemma msgCtl_fallthru (msg : Msg) (h1 : msg ≠ Msg.quitMsg)
    (h2 : msg ≠ Msg.interruptMsg) (h3 : ∀ cs, msg ≠ Msg.batchMsg cs) :
    msgCtl msg = Ctl.fallthru := by
  cases msg <;> first
    | rfl
    | exact absurd rfl h1
    | exact absurd rfl h2
    | exact absurd rfl (h3 _)

/-- Counterexample to C3 as stated: quit, interrupt and batch messages do
not reach `Model.Update` — a batch only forwards its member commands to the
executor and renders nothing, and a quit terminates the loop without an
Update call. -/
theorem update_not_invoked_for_batch_counterexample :
    (processMsg unitUpdate none st0 () (some (Msg.batchMsg [some 5, none]))).effs =
        [Eff.forwardCmd (some 5), Eff.forwardCmd none] ∧
      Eff.updateCall ∉
        (processMsg unitUpdate none st0 () (some (Msg.batchMsg [some 5, none]))).effs ∧
      Eff.render ∉
        (processMsg unitUpdate none st0 () (some (Msg.batchMsg [some 5, none]))).effs ∧
      (processMsg unitUpdate none st0 () (some (Msg.batchMsg [some 5, none]))).exit = none ∧
      Eff.updateCall ∉ (processMsg unitUpdate none st0 () (some Msg.quitMsg)).effs := by
  decide

/-- C3 amended: for every message the filter does not drop, other than the
loop-terminating `QuitMsg`/`InterruptMsg` and the command-forwarding
`BatchMsg`, the loop first applies the internal effect, then invokes
`Model.Update` with the message, forwards the resulting command to the
executor channel, and renders the new model, in that order. -/
theorem update_forward_render_after_internal_effect {M : Type}
    (update : M → Msg → M × Option CmdId) (st : ProgState) (model : M) (msg : Msg)
    (h1 : msg ≠ Msg.quitMsg) (h2 : msg ≠ Msg.interruptMsg)
    (h3 : ∀ cs, msg ≠ Msg.batchMsg cs) :
    processMsg update none st model (some msg) =
      ⟨(internalEffect st msg).1, (update model msg).1,
        (internalEffect st msg).2 ++
          [Eff.updateCall, Eff.forwardCmd (update model msg).2, Eff.render],
        none⟩ := by
  simp [processMsg, applyFilter, msgCtl_fallthru msg h1 h2 h3]

/-- Witness for C3 amended: a concrete suspend message on the fresh state
takes the internal-effect-then-update-forward-render path. -/
theorem update_forward_render_witness :
    processMsg unitUpdate none st0 () (some Msg.suspendMsg) =
      ⟨st0, (), [Eff.suspendProcess, Eff.updateCall, Eff.forwardCmd none, Eff.render],
        none⟩ :=
  update_forward_render_after_internal_effect unitUpdate st0 () Msg.suspendMsg
    (fun h => Msg.noConfusion h) (fun h => Msg.noConfusion h)
    (fun _ h => Msg.noConfusion h)

/-- Writing a mode and reading the same mode back yields the written
value. -/
lemma Modes.get_setTo_self (ms : Modes) (m : Nat) (v : ModeSetting) :
    (ms.setTo m v).get m = v := by
  simp [Modes.setTo, Modes.get, List.lookup]

/-- A set mode setting is not a reset one. -/
lemma ModeSetting.not_isReset_of_isSet (v : ModeSetting) (h : v.IsSet = true) :
    v.IsReset = false := by
  cases v <;> simp_all [ModeSetting.IsSet, ModeSetting.IsReset]

/-- A reset mode setting is not a set one. -/
lemma ModeSetting.not_isSet_of_isReset (v : ModeSetting) (h : v.IsReset = true) :
    v.IsSet = false := by
  cases v <;> simp_all [ModeSetting.IsSet, ModeSetting.IsReset]

/-- The set value reads as set. -/
lemma ModeSetting.isSet_set : ModeSetting.set.IsSet = true := rfl

/-- The set value does not read as reset. -/
lemma ModeSetting.isReset_set : ModeSetting.set.IsReset = false := rfl

/-- The reset value does not read as set. -/
lemma ModeSetting.isSet_reset : ModeSetting.reset.IsSet = false := rfl

/-- The reset value reads as reset. -/
lemma ModeSetting.isReset_reset : ModeSetting.reset.IsReset = true := rfl

/-- Equation of the enableModeMsg arm of the switch. -/
lemma internalEffect_enable (st : ProgState) (m : Nat) :
    internalEffect st (Msg.enableModeMsg m) =
      if (st.modes.get m).IsSet then (st, [])
      else ({ st with modes := st.modes.setMode m }, enableModeSideEffect m) := rfl

/-- Equation of the disableModeMsg arm of the switch. -/
lemma internalEffect_disable (st : ProgState) (m : Nat) :
    internalEffect st (Msg.disableModeMsg m) =
      if (st.modes.get m).IsReset then (st, [])
      else ({ st with modes := st.modes.resetMode m }, disableModeSideEffect m) := rfl

/-- After the event loop processes a mode request, the addressed mode is in
the requested target state, whatever it was before. -/
lemma modeOp_post (s : ProgState) (op : ModeOp) :
    (((internalEffect s op.toMsg).1.modes.get op.mode).IsSet = op.isEnable) ∧
      (((internalEffect s op.toMsg).1.modes.get op.mode).IsReset = !op.isEnable) := by
  cases op with
  | enable m =>
    cases hs : (s.modes.get m).IsSet with
    | true =>
      refine ⟨?_, ?_⟩ <;>
        simp [ModeOp.toMsg, ModeOp.mode, ModeOp.isEnable, internalEffect_enable, hs,
          ModeSetting.not_isReset_of_isSet _ hs]
    | false =>
      refine ⟨?_, ?_⟩ <;>
        simp [ModeOp.toMsg, ModeOp.mode, ModeOp.isEnable, internalEffect_enable, hs,
          Modes.setMode, Modes.get_setTo_self, ModeSetting.isSet_set,
          ModeSetting.isReset_set]
  | disable m =>
    cases hs : (s.modes.get m).IsReset with
    | true =>
      refine ⟨?_, ?_⟩ <;>
        simp [ModeOp.toMsg, ModeOp.mode, ModeOp.isEnable, internalEffect_disable, hs,
          ModeSetting.not_isSet_of_isReset _ hs]
    | false =>
      refine ⟨?_, ?_⟩ <;>
        simp [ModeOp.toMsg, ModeOp.mode, ModeOp.isEnable, internalEffect_disable, hs,
          Modes.resetMode, Modes.get_setTo_self, ModeSetting.isSet_reset,
          ModeSetting.isReset_reset]

/-- Repeating the same mode request immediately after it was processed is a
complete no-op: the state is returned unchanged and no effect is issued. -/
lemma modeOp_repeat_noop (s : ProgState) (op : ModeOp) :
    internalEffect (internalEffect s op.toMsg).1 op.toMsg =
      ((internalEffect s op.toMsg).1, []) := by
  cases op with
  | enable m =>
    have h := (modeOp_post s (ModeOp.enable m)).1
    simp only [ModeOp.toMsg, ModeOp.mode, ModeOp.isEnable] at h
    simp [ModeOp.toMsg, internalEffect_enable
      (internalEffect s (Msg.enableModeMsg m)).1 m, h]
  | disable m =>
    have h := (modeOp_post s (ModeOp.disable m)).2
    simp only [ModeOp.toMsg, ModeOp.mode, ModeOp.isEnable] at h
    simp [ModeOp.toMsg, internalEffect_disable
      (internalEffect s (Msg.disableModeMsg m)).1 m, h]

/-- Processing one more mode request is one more `internalEffect` step. -/
lemma applyModeOps_append_one (st : ProgState) (ops : List ModeOp) (op : ModeOp) :
    applyModeOps st (ops ++ [op]) =
      (internalEffect (applyModeOps st ops) op.toMsg).1 := by
  simp [applyModeOps, List.foldl_append]

/-- Counterexample to C4 as stated: on the fresh state, the sequence
enable, enable, disable on mode 2004 has an odd net number of enables (so
the spec's parity reading predicts a set mode), yet the code leaves the
mode reset; and the sequence enable, enable (an even number of enables)
leaves the mode set, refuting the even-parity reading as well. -/
theorem mode_parity_counterexample :
    netEnables [ModeOp.enable 2004, ModeOp.enable 2004, ModeOp.disable 2004] 2004 = 1 ∧
      specParityState [ModeOp.enable 2004, ModeOp.enable 2004, ModeOp.disable 2004] 2004 =
        ModeSetting.set ∧
      (applyModeOps st0 [ModeOp.enable 2004, ModeOp.enable 2004, ModeOp.disable 2004]).modes.get
          2004 = ModeSetting.reset ∧
      ModeSetting.set ≠ ModeSetting.reset ∧
      (applyModeOps st0 [ModeOp.enable 2004, ModeOp.enable 2004]).modes.get 2004 =
        ModeSetting.set := by
  decide

/-- C4 amended: enabling an already-set mode or disabling an already-reset
mode is a complete no-op (state unchanged, no terminal write, no renderer
call); after any sequence of enable/disable requests, the resulting mode
state is the target of the last request on that mode — set after an enable,
reset after a disable — and repeating the last request changes nothing and
emits nothing, so a doubled call has the observable effect of a single
one. -/
theorem mode_machine_noop_lastop_idempotent (st : ProgState) (m : Nat)
    (ops : List ModeOp) (op : ModeOp) :
    ((st.modes.get m).IsSet = true → internalEffect st (Msg.enableModeMsg m) = (st, [])) ∧
      ((st.modes.get m).IsReset = true →
        internalEffect st (Msg.disableModeMsg m) = (st, [])) ∧
      (((applyModeOps st (ops ++ [op])).modes.get op.mode).IsSet = op.isEnable ∧
        ((applyModeOps st (ops ++ [op])).modes.get op.mode).IsReset = !op.isEnable) ∧
      (applyModeOps st (ops ++ [op, op]) = applyModeOps st (ops ++ [op]) ∧
        internalEffect (applyModeOps st (ops ++ [op])) op.toMsg =
          (applyModeOps st (ops ++ [op]), [])) := by
  refine ⟨?_, ?_, ⟨?_, ?_⟩, ?_, ?_⟩
  · intro h; simp [internalEffect_enable, h]
  · intro h; simp [internalEffect_disable, h]
  · rw [applyModeOps_append_one]; exact (modeOp_post (applyModeOps st ops) op).1
  · rw [applyModeOps_append_one]; exact (modeOp_post (applyModeOps st ops) op).2
  · have hsplit : ops ++ [op, op] = (ops ++ [op]) ++ [op] := by simp
    rw [hsplit, applyModeOps_append_one st (ops ++ [op]) op,
      applyModeOps_append_one st ops op, modeOp_repeat_noop]
  · rw [applyModeOps_append_one st ops op, modeOp_repeat_noop]

/-- Witness for C4 amended: enabling already-set bracketed paste and
disabling already-reset bracketed paste are no-ops, and a concrete enable
on the fresh state lands the mode in the set state. -/
theorem mode_machine_witness :
    internalEffect stSet (Msg.enableModeMsg 2004) = (stSet, []) ∧
      internalEffect stReset (Msg.disableModeMsg 2004) = (stReset, []) ∧
      ((applyModeOps st0 [ModeOp.enable 2004]).modes.get 2004).IsSet = true := by
  refine ⟨?_, ?_, ?_⟩
  · exact (mode_machine_noop_lastop_idempotent stSet 2004 [] (ModeOp.enable 2004)).1
      (by decide)
  · exact (mode_machine_noop_lastop_idempotent stReset 2004 [] (ModeOp.disable 2004)).2.1
      (by decide)
  · exact (mode_machine_noop_lastop_idempotent st0 2004 [] (ModeOp.enable 2004)).2.2.1.1

/-- An enhancements value with both channels zero is the zero value. -/
lemma KeyboardEnhancements.eq_zero (k : KeyboardEnhancements) (h1 : k.kittyFlags = 0)
    (h2 : k.modifyOtherKeys = 0) : k = ⟨0, 0⟩ := by
  cases k
  simp_all

/-- The Go idiom `if b > a then b else a` is the maximum. -/
lemma if_gt_eq_max (a b : Nat) : (if b > a then b else a) = max a b := by
  rcases Nat.lt_or_ge a b with h | h
  · simp [h, Nat.max_eq_right (Nat.le_of_lt h)]
  · have hnot : ¬a < b := Nat.not_lt.mpr h
    simp [hnot, Nat.max_eq_left h]

/-- Folding the per-message merge is the componentwise fold: bitwise OR on
the kitty bitmask and maximum on the modifyOtherKeys level. -/
lemma requested_fold (reqs : List (List KeyboardEnhancementOption))
    (init : KeyboardEnhancements) :
    reqs.foldl mergeRequested init =
      ⟨reqs.foldl (fun a opts => a ||| (keOfOptions opts).kittyFlags) init.kittyFlags,
        reqs.foldl (fun a opts => max a (keOfOptions opts).modifyOtherKeys)
          init.modifyOtherKeys⟩ := by
  induction reqs generalizing init with
  | nil => rfl
  | cons o os ih =>
    simp only [List.foldl_cons]
    rw [ih]
    simp [mergeRequested, if_gt_eq_max]

/-- Equation of the enableKeyboardEnhancementsMsg arm of the switch. -/
lemma internalEffect_enableKE (st : ProgState) (opts : List KeyboardEnhancementOption) :
    internalEffect st (Msg.enableKeyboardEnhancementsMsg opts) =
      if st.windows then (st, [])
      else
        ({ st with requestedEnhancements := mergeRequested st.requestedEnhancements opts },
          (requestKeyboardEnhancements (mergeRequested st.requestedEnhancements opts)).map
              Eff.write ++ [Eff.spawnSendKeyboardEnhancementsMsg]) := rfl

/-- On a non-windows build, a request sequence only rewrites the requested
set, by folding the per-message merge over the sequence. -/
lemma processEnhancementRequests_eq (st : ProgState) (h : st.windows = false)
    (reqs : List (List KeyboardEnhancementOption)) :
    processEnhancementRequests st reqs =
      { st with requestedEnhancements := reqs.foldl mergeRequested st.requestedEnhancements } := by
  induction reqs generalizing st with
  | nil => rfl
  | cons o os ih =>
    simp only [processEnhancementRequests, List.foldl_cons]
    rw [internalEffect_enableKE, if_neg (by simp [h])]
    exact ih _ h

/-- C5: starting from a zero requested set on a non-windows build, after
any sequence of enable-keyboard-enhancements requests the requested kitty
bitmask is the bitwise OR of the bitmasks the requests carried and the
requested modifyOtherKeys level is their maximum; in particular a
report-event-types request followed by a bare disambiguation request merges
to bitmask 3 with level 1, and the negotiation escapes emitted for the
second request already use the merged values. -/
theorem keyboard_requests_or_max (st : ProgState)
    (reqs : List (List KeyboardEnhancementOption)) (h1 : st.windows = false)
    (h2 : st.requestedEnhancements = ⟨0, 0⟩) :
    (processEnhancementRequests st reqs).requestedEnhancements =
        ⟨(reqs.map (fun opts => (keOfOptions opts).kittyFlags)).foldl (· ||| ·) 0,
          (reqs.map (fun opts => (keOfOptions opts).modifyOtherKeys)).foldl max 0⟩ ∧
      (processEnhancementRequests st0
          [[KeyboardEnhancementOption.withKeyReleases,
              KeyboardEnhancementOption.withKeyDisambiguation],
            [KeyboardEnhancementOption.withKeyDisambiguation]]).requestedEnhancements =
        ⟨3, 1⟩ ∧
      (internalEffect
          (processEnhancementRequests st0
            [[KeyboardEnhancementOption.withKeyReleases,
                KeyboardEnhancementOption.withKeyDisambiguation]])
          (Msg.enableKeyboardEnhancementsMsg
            [KeyboardEnhancementOption.withKeyDisambiguation])).2 =
        [Eff.write (TermWrite.keyModifierOptions 4 1),
          Eff.write TermWrite.queryModifyOtherKeys,
          Eff.write (TermWrite.pushKittyKeyboard 3),
          Eff.write TermWrite.requestKittyKeyboard,
          Eff.spawnSendKeyboardEnhancementsMsg] := by
  refine ⟨?_, by decide, by decide⟩
  rw [processEnhancementRequests_eq st h1 reqs, requested_fold, h2]
  simp [List.foldl_map]

/-- Witness for C5: a single report-event-types request on the fresh state
lands the requested set at bitmask 3 (event types OR disambiguation),
level 1. -/
theorem keyboard_requests_or_max_witness :
    (processEnhancementRequests st0
        [[KeyboardEnhancementOption.withKeyReleases,
            KeyboardEnhancementOption.withKeyDisambiguation]]).requestedEnhancements =
      ⟨3, 1⟩ := by
  have h := keyboard_requests_or_max st0
    [[KeyboardEnhancementOption.withKeyReleases,
        KeyboardEnhancementOption.withKeyDisambiguation]] rfl rfl
  rw [h.1]
  decide

/-- Counterexample to C7 as stated: in a state where a request is pending
(requested bitmask 1, level 1) but nothing is active, a disable message
leaves the requested set untouched — the code clears a requested channel
only under the guard that the channel is active. -/
theorem disable_pending_request_counterexample :
    (internalEffect stPendingRequest
          Msg.disableKeyboardEnhancementsMsg).1.requestedEnhancements = ⟨1, 1⟩ ∧
      (⟨1, 1⟩ : KeyboardEnhancements) ≠ ⟨0, 0⟩ ∧
      (internalEffect stPendingRequest Msg.disableKeyboardEnhancementsMsg).2 = [] := by
  decide

/-- C7 amended: on a non-windows build, a disable message zeroes the active
enhancements; for each channel it emits the reset escape and clears the
requested value only if that channel is currently active; and a repeated
disable is a complete no-op. -/
theorem disable_enhancements_guarded (st : ProgState) (h : st.windows = false) :
    (disableEnhancements st).1.activeEnhancements = ⟨0, 0⟩ ∧
      (disableEnhancements st).1.requestedEnhancements.modifyOtherKeys =
        (if st.activeEnhancements.modifyOtherKeys > 0 then 0
          else st.requestedEnhancements.modifyOtherKeys) ∧
      (disableEnhancements st).1.requestedEnhancements.kittyFlags =
        (if st.activeEnhancements.kittyFlags > 0 then 0
          else st.requestedEnhancements.kittyFlags) ∧
      (disableEnhancements st).2 =
        ((if st.activeEnhancements.modifyOtherKeys > 0 then
            [Eff.write TermWrite.resetModifyOtherKeys] else []) ++
          (if st.activeEnhancements.kittyFlags > 0 then
            [Eff.write TermWrite.disableKittyKeyboard] else [])) ∧
      disableEnhancements (disableEnhancements st).1 = ((disableEnhancements st).1, []) := by
  by_cases h1 : st.activeEnhancements.modifyOtherKeys > 0 <;>
    by_cases h2 : st.activeEnhancements.kittyFlags > 0 <;>
      (simp_all [disableEnhancements];
        try exact KeyboardEnhancements.eq_zero _ (by omega) (by omega))

/-- Witness for C7 amended: with both channels active, a disable zeroes the
active set and emits both reset escapes. -/
theorem disable_enhancements_witness :
    (disableEnhancements stActive).1.activeEnhancements = ⟨0, 0⟩ ∧
      (disableEnhancements stActive).2 =
        [Eff.write TermWrite.resetModifyOtherKeys,
          Eff.write TermWrite.disableKittyKeyboard] := by
  have h := disable_enhancements_guarded stActive rfl
  refine ⟨h.1, ?_⟩
  rw [h.2.2.2.1]
  decide

end Tea
